import Mathlib

/-!
# DockAccess UI (`ui/src/App.jsx`): health dashboard, endpoint tester, cross-service runner

A shallow embedding of the logic of `App.jsx`.

* JavaScript values are the inductive type `JsValue`; `||` and `?.` are `JsValue.or` and
  `optChain`.
* An `async` function is a value of the resumption monad `Async`: a tree whose nodes are
  React state setter calls, dispatched axios requests and suspension points (`await`).
  `try / catch / finally` are the monad's `tryCatch` and `tryFinally`.
* `Async.advance` runs the synchronous segment up to the next suspension point, and
  `Async.drive` runs an invocation against a list of settlements delivered by the network.
-/

namespace DockAccess

/-! ## JavaScript values -/

/-- JavaScript values. Numbers are integers (HTTP status codes and the numeric payloads used
here); `func` stands for a built-in function of the runtime and `builtin` for a built-in
object that is not callable. -/
inductive JsValue where
  | undefined
  | null
  | bool (b : Bool)
  | num (n : Int)
  | str (s : String)
  | arr (items : List JsValue)
  | obj (fields : List (String × JsValue))
  | func (name : String)
  | builtin (name : String)

/-- JavaScript truthiness (`ToBoolean`): `undefined`, `null`, `false`, `0` and `''` are falsy,
every object, array and function is truthy. -/
def JsValue.truthy : JsValue → Bool
  | .undefined => false
  | .null => false
  | .bool b => b
  | .num n => n != 0
  | .str s => s != ""
  | .arr _ => true
  | .obj _ => true
  | .func _ => true
  | .builtin _ => true

/-- The operator `a || b`: `a` when `a` is truthy, otherwise `b`. -/
def JsValue.or (a b : JsValue) : JsValue :=
  if a.truthy then a else b

/-- Own property of an object value (`undefined` when absent or when not an object). -/
def JsValue.field (v : JsValue) (key : String) : JsValue :=
  match v with
  | .obj fields => (fields.lookup key).getD .undefined
  | _ => .undefined

/-- The keys of an object value, in order. -/
def JsValue.keys : JsValue → List String
  | .obj fields => fields.map Prod.fst
  | _ => []

/-! ## axios: requests, responses, errors -/

/-- An axios response object, of which the code reads `status`, `data` and `headers`. -/
structure Response where
  status : JsValue
  data : JsValue
  headers : JsValue

/-- A thrown JavaScript error: its `message`, and the `response` property that an axios error
carries when the server answered (absent on transport errors and on built-in errors). -/
structure JsError where
  message : String
  response : Option Response

/-- How a request settles: axios resolves with a response or rejects with an error. -/
inductive Outcome where
  | fulfilled (r : Response)
  | rejected (e : JsError)

/-- A request handed to axios. -/
inductive Request where
  | get (url : String)
  | post (url : String) (body : JsValue)

/-- The promise returned by an axios call, identified by the order of dispatch. -/
abbrev Promise := Nat

/-- Optional chaining `x?.f` on the `response` property of an error. -/
def optChain (r : Option Response) (f : Response → JsValue) : JsValue :=
  match r with
  | some x => f x
  | none => .undefined

/-! ## Asynchronous functions -/

/-- An asynchronous function body as a resumption tree. `setLoading` and `setSlot` are the
two React state setters of a component (`setSlot` is `setResponse`, `setResult` or
`setServices`), `send` dispatches a request and hands back its promise, and `awaitAny`
suspends the function until one of the listed promises settles. -/
inductive Async (α : Type) where
  | done (a : α)
  | fail (e : JsError)
  | setLoading (b : Bool) (k : Async α)
  | setSlot (v : JsValue) (k : Async α)
  | send (r : Request) (k : Promise → Async α)
  | awaitAny (ps : List Promise) (k : Promise → Outcome → Async α)

namespace Async

/-- Sequencing. -/
def bind {α β : Type} : Async α → (α → Async β) → Async β
  | .done a, f => f a
  | .fail e, _ => .fail e
  | .setLoading b k, f => .setLoading b (k.bind f)
  | .setSlot v k, f => .setSlot v (k.bind f)
  | .send r k, f => .send r (fun p => (k p).bind f)
  | .awaitAny ps k, f => .awaitAny ps (fun p o => (k p o).bind f)

/-- The block `try { body } catch (error) { handler }`. -/
def tryCatch {α : Type} : Async α → (JsError → Async α) → Async α
  | .done a, _ => .done a
  | .fail e, h => h e
  | .setLoading b k, h => .setLoading b (k.tryCatch h)
  | .setSlot v k, h => .setSlot v (k.tryCatch h)
  | .send r k, h => .send r (fun p => (k p).tryCatch h)
  | .awaitAny ps k, h => .awaitAny ps (fun p o => (k p o).tryCatch h)

/-- The block `try { body } finally { fin }`: `fin` runs on normal completion and on a
throw, and a throw is rethrown after it. -/
def tryFinally {α β : Type} : Async α → (Option α → Async β) → Async (α × β)
  | .done a, fin => (fin (some a)).bind (fun b => .done (a, b))
  | .fail e, fin => (fin none).bind (fun _ => .fail e)
  | .setLoading b k, fin => .setLoading b (k.tryFinally fin)
  | .setSlot v k, fin => .setSlot v (k.tryFinally fin)
  | .send r k, fin => .send r (fun p => (k p).tryFinally fin)
  | .awaitAny ps k, fin => .awaitAny ps (fun p o => (k p o).tryFinally fin)

end Async

instance : Monad Async where
  pure := Async.done
  bind := Async.bind

instance : MonadExcept JsError Async where
  throw := Async.fail
  tryCatch := Async.tryCatch

instance : MonadFinally Async where
  tryFinally' := Async.tryFinally

/-- The call `setLoading(b)`. -/
def setLoading (b : Bool) : Async Unit := .setLoading b (.done ())

/-- The call `setResponse(v)` of `ServiceTest`. -/
def setResponse (v : JsValue) : Async Unit := .setSlot v (.done ())

/-- The call `setResult(v)` of `CrossServiceTest`. -/
def setResult (v : JsValue) : Async Unit := .setSlot v (.done ())

/-- The call `setServices(v)` of `Dashboard`. -/
def setServices (v : JsValue) : Async Unit := .setSlot v (.done ())

/-- The call `axios.get(url)`: the request is dispatched and its promise returned. -/
def axios.get (url : String) : Async Promise := .send (.get url) .done

/-- The call `axios.post(url, body)`. -/
def axios.post (url : String) (body : JsValue) : Async Promise := .send (.post url body) .done

/-- The expression `await p`: suspend until `p` settles; a rejection is thrown. -/
def await (p : Promise) : Async Response :=
  .awaitAny [p] fun _ o =>
    match o with
    | .fulfilled r => .done r
    | .rejected e => .fail e

/-- The error thrown by reading property `prop` of `undefined`. -/
def typeError (prop : String) : JsError :=
  { message := "Cannot read properties of undefined (reading '" ++ prop ++ "')",
    response := none }

/-- Member access on a variable declared by `let response;` and possibly never assigned:
reading a property of `undefined` throws a `TypeError`. -/
def member (r : Option Response) (prop : String) : Async Response :=
  match r with
  | some x => pure x
  | none => throw (typeError prop)

/-! ## Running an invocation -/

/-- An observable action of an invocation, in program order. -/
inductive Effect where
  | setLoading (b : Bool)
  | setSlot (v : JsValue)
  | send (p : Promise) (r : Request)

/-- The state of one UI surface: its busy flag, its result slot, the promises of the
requests in flight, and the log of actions so far. -/
structure World where
  loading : Bool
  slot : JsValue
  nextId : Nat
  inFlight : List Promise
  log : List Effect

/-- Runs the synchronous segment of a function up to its next suspension point (or its
end); the function left over is `done`, `fail` or `awaitAny`. -/
def Async.advance {α : Type} : Async α → World → World × Async α
  | .done a, w => (w, .done a)
  | .fail e, w => (w, .fail e)
  | .setLoading b k, w =>
      k.advance { w with loading := b, log := w.log ++ [.setLoading b] }
  | .setSlot v k, w =>
      k.advance { w with slot := v, log := w.log ++ [.setSlot v] }
  | .send r k, w =>
      (k w.nextId).advance
        { w with nextId := w.nextId + 1, inFlight := w.inFlight ++ [w.nextId],
                 log := w.log ++ [.send w.nextId r] }
  | .awaitAny ps k, w => (w, .awaitAny ps k)

/-- How an invocation stands: returned, rejected with an error (the failure reaches the
caller of the async function), or still suspended. -/
inductive Completion (α : Type) where
  | returned (a : α)
  | threw (e : JsError)
  | pending

/-- Runs an invocation against the settlements delivered by the network, in order of
arrival. A settlement of a promise that is not in flight is ignored; one of a promise the
function does not wait for is consumed without resuming it. -/
def Async.drive {α : Type} (t : Async α) (events : List (Promise × Outcome)) (w : World) :
    World × Completion α :=
  match events with
  | [] =>
    match t.advance w with
    | (w1, .done a) => (w1, .returned a)
    | (w1, .fail e) => (w1, .threw e)
    | (w1, _) => (w1, .pending)
  | (p, o) :: rest =>
    match t.advance w with
    | (w1, .done a) => (w1, .returned a)
    | (w1, .fail e) => (w1, .threw e)
    | (w1, .awaitAny ps k) =>
      if p ∈ w1.inFlight then
        if p ∈ ps then
          Async.drive (k p o) rest { w1 with inFlight := w1.inFlight.erase p }
        else
          Async.drive (.awaitAny ps k) rest { w1 with inFlight := w1.inFlight.erase p }
      else
        Async.drive (.awaitAny ps k) rest w1
    | (w1, _) => (w1, .pending)

/-- A surface before any invocation: given busy flag and slot, nothing in flight. -/
def World.init (loading : Bool) (slot : JsValue) : World :=
  { loading := loading, slot := slot, nextId := 0, inFlight := [], log := [] }

/-! ## `App.jsx` -/

/-- The constant `API_BASE_URL`. -/
def API_BASE_URL : String := "http://localhost:80"

/-- An entry of the endpoint table: `{ name, path, method }`. -/
structure EndpointDescriptor where
  name : String
  path : String
  method : String

/-- The function `ServiceTest.testEndpoint` (App.jsx lines 93-128); `now` is the value of
`new Date().toISOString()`. -/
def testEndpoint (serviceName : String) (endpoint : EndpointDescriptor) (now : String) :
    Async Unit := do
  setLoading true
  setResponse .null
  let fullUrl := API_BASE_URL ++ "/" ++ serviceName ++ endpoint.path
  try
    let mut response : Option Response := none
    if endpoint.method = "GET" then
      response := some (← await (← axios.get fullUrl))
    else if endpoint.method = "POST" then
      response := some (← await (← axios.post fullUrl
        (.obj [("test", .bool true), ("timestamp", .str now)])))
    let r ← member response "status"
    setResponse (.obj [
      ("endpoint", .str fullUrl),
      ("method", .str endpoint.method),
      ("status", r.status),
      ("data", r.data),
      ("headers", r.headers)])
  catch error =>
    setResponse (.obj [
      ("endpoint", .str fullUrl),
      ("method", .str endpoint.method),
      ("status", (optChain error.response Response.status).or (.str "Error")),
      ("data", (optChain error.response Response.data).or (.str error.message)),
      ("headers", (optChain error.response Response.headers).or (.obj []))])
  finally
    setLoading false

/-- The error thrown by evaluating an identifier that has no binding in scope. -/
def referenceError (name : String) : JsError :=
  { message := name ++ " is not defined", response := none }

/-- The expression `new Error(message)`. -/
def newError (message : String) : JsError :=
  { message := message, response := none }

/-- The value of a variable declared by `let x;` and assigned a string or left unassigned. -/
def JsValue.ofOption : Option String → JsValue
  | some s => .str s
  | none => .undefined

/-- The expression `await Promise.all([pA, pB])` on two promises: it resolves with both
responses, in the order of the array, once both are fulfilled, and rejects with the error
of the first promise that rejects, without waiting for the other. -/
def Promise.all (pA pB : Promise) : Async (Response × Response) :=
  .awaitAny [pA, pB] fun p o =>
    match o with
    | .rejected e => .fail e
    | .fulfilled r =>
      if p = pA then
        .awaitAny [pB] fun _ o2 =>
          match o2 with
          | .rejected e => .fail e
          | .fulfilled rB => .done (r, rB)
      else
        .awaitAny [pA] fun _ o1 =>
          match o1 with
          | .rejected e => .fail e
          | .fulfilled rA => .done (rA, r)

/-- The function `Dashboard.checkServiceHealth` (App.jsx lines 16-23). -/
def checkServiceHealth (serviceName : String) : Async JsValue := do
  try
    let response ← await (← axios.get (API_BASE_URL ++ "/" ++ serviceName ++ "/health"))
    return .obj [("status", .str "healthy"), ("data", response.data)]
  catch error =>
    return .obj [("status", .str "unhealthy"), ("data", .str error.message)]

/-- The function `Dashboard.checkAllServices` (App.jsx lines 25-33). -/
def checkAllServices : Async Unit := do
  let serviceAHealth ← checkServiceHealth "service-a"
  let serviceBHealth ← checkServiceHealth "service-b"
  setServices (.obj [
    ("serviceA", serviceAHealth),
    ("serviceB", serviceBHealth)])

/-- The function `CrossServiceTest.runTest` (App.jsx lines 168-225). The variables `response` and
`endpoint` are declared by `let` inside the `try` block, so the identifier `endpoint` in
the `catch` block has no binding: evaluating the first property of the object literal
there throws a `ReferenceError`, before `setResult` is called. -/
def runTest (type : JsValue) : Async Unit := do
  setLoading true
  setResult .null
  try
    let mut response : Option Response := none
    let mut endpoint : Option String := none
    match type with
    | .str "a-to-b" =>
      let url := API_BASE_URL ++ "/service-a/api/with-service-b"
      endpoint := some url
      response := some (← await (← axios.get url))
    | .str "b-to-a" =>
      let url := API_BASE_URL ++ "/service-b/api/with-service-a"
      endpoint := some url
      response := some (← await (← axios.get url))
    | .str "both" =>
      let endpointA := API_BASE_URL ++ "/service-a/api/with-service-b"
      let endpointB := API_BASE_URL ++ "/service-b/api/with-service-a"
      let (serviceAResponse, serviceBResponse) ←
        Promise.all (← axios.get endpointA) (← axios.get endpointB)
      setResult (.obj [
        ("status", .str "Success"),
        ("endpoints", .obj [
          ("service-a-to-b", .str endpointA),
          ("service-b-to-a", .str endpointB)]),
        ("data", .obj [
          ("service-a-to-b", serviceAResponse.data),
          ("service-b-to-a", serviceBResponse.data)])])
      setLoading false
      return
    | _ => throw (newError "Unknown test type")
    let r ← member response "status"
    setResult (.obj [
      ("endpoint", JsValue.ofOption endpoint),
      ("status", r.status),
      ("data", r.data)])
  catch error =>
    let endpoint : JsValue ← throw (referenceError "endpoint")
    setResult (.obj [
      ("endpoint", endpoint),
      ("status", (optChain error.response Response.status).or (.str "Error")),
      ("data", (optChain error.response Response.data).or (.str error.message))])
  finally
    setLoading false

/-- An endpoint descriptor as the object literal `{ name, path, method }`. -/
def EndpointDescriptor.toJs (d : EndpointDescriptor) : JsValue :=
  .obj [("name", .str d.name), ("path", .str d.path), ("method", .str d.method)]

/-- The object literal `serviceEndpoints` of `ServiceTest` (App.jsx lines 76-89). -/
def serviceEndpoints : List (String × List EndpointDescriptor) :=
  [ ("service-a", [
      { name := "Health Check", path := "/health", method := "GET" },
      { name := "Get API Data", path := "/api", method := "GET" },
      { name := "Call Service B", path := "/api/with-service-b", method := "GET" },
      { name := "Internal Endpoint", path := "/internal", method := "GET" } ]),
    ("service-b", [
      { name := "Health Check", path := "/health", method := "GET" },
      { name := "Get API Data", path := "/api", method := "GET" },
      { name := "Call Service A", path := "/api/with-service-a", method := "GET" },
      { name := "Internal Endpoint", path := "/internal", method := "GET" } ]) ]

/-- The property names that every object literal inherits from `Object.prototype`
(ECMAScript 20.1.3 and Annex B.2.2). -/
def objectPrototypeKeys : List String :=
  [ "constructor", "hasOwnProperty", "isPrototypeOf", "propertyIsEnumerable",
    "toLocaleString", "toString", "valueOf", "__proto__",
    "__defineGetter__", "__defineSetter__", "__lookupGetter__", "__lookupSetter__" ]

/-- The property read `literal[key]` on an object literal with the given own properties: an
own property first, then the prototype chain, which for a literal is `Object.prototype`
(`__proto__` reads as the prototype object itself, the other members are built-in
functions), and `undefined` when neither has the key. -/
def getProperty (own : List (String × JsValue)) (key : String) : JsValue :=
  match own.lookup key with
  | some v => v
  | none =>
    if key = "__proto__" then .builtin "Object.prototype"
    else if key ∈ objectPrototypeKeys then .func ("Object.prototype." ++ key)
    else .undefined

/-- The error thrown by `ToObject(undefined)`, which the methods of `Object.prototype`
apply to their receiver. -/
def toObjectError : JsError :=
  { message := "Cannot convert undefined or null to object", response := none }

/-- The call `f(arg)` of a member `f` of `Object.prototype` as a plain function, that is
with receiver `undefined` (ECMAScript 20.1.1.1, 20.1.3 and B.2.2): `Object(arg)` returns an
object argument unchanged, a fresh empty object for `undefined` and `null`, and a wrapper
object (kept abstract) for a primitive; `toString` answers `"[object Undefined]"`;
`isPrototypeOf` answers `false` for a primitive argument; every other call converts the
receiver to an object first and throws a `TypeError`. -/
def callBuiltin (name : String) (arg : JsValue) : Except JsError JsValue :=
  if name = "Object.prototype.constructor" then
    match arg with
    | .undefined => .ok (.obj [])
    | .null => .ok (.obj [])
    | .bool _ => .ok (.builtin "wrapper object")
    | .num _ => .ok (.builtin "wrapper object")
    | .str _ => .ok (.builtin "wrapper object")
    | v => .ok v
  else if name = "Object.prototype.toString" then
    .ok (.str "[object Undefined]")
  else if name = "Object.prototype.isPrototypeOf" then
    match arg with
    | .arr _ => .error toObjectError
    | .obj _ => .error toObjectError
    | .func _ => .error toObjectError
    | .builtin _ => .error toObjectError
    | _ => .ok (.bool false)
  else
    .error toObjectError

/-- The setter returned by `useState`, applied to the current state: an argument that is
a function is an updater and the new state is what it returns for the current state; any
other argument is the new state. -/
def applySetter (action state : JsValue) : Except JsError JsValue :=
  match action with
  | .func name => callBuiltin name state
  | v => .ok v

/-- The argument of `setEndpoints` in the effect of `ServiceTest` (App.jsx line 90):
`serviceEndpoints[serviceName] || []`. -/
def ServiceTest.endpointsArg (serviceName : String) : JsValue :=
  (getProperty
    (serviceEndpoints.map fun entry => (entry.1, .arr (entry.2.map EndpointDescriptor.toJs)))
    serviceName).or (.arr [])

/-- The `endpoints` state after the effect of `ServiceTest` (App.jsx lines 74-91) has run
on the state `prev`: `setEndpoints(serviceEndpoints[serviceName] || [])`. -/
def ServiceTest.setEndpoints (serviceName : String) (prev : JsValue) :
    Except JsError JsValue :=
  applySetter (ServiceTest.endpointsArg serviceName) prev

/-- The endpoint list of `ServiceTest` once mounted: the state starts as `useState([])` and
the effect runs once. -/
def ServiceTest.endpoints (serviceName : String) : Except JsError JsValue :=
  ServiceTest.setEndpoints serviceName (.arr [])

/-! ## The `ServiceTest` surface as a state machine -/

/-- A suspended invocation: the promises it waits for and what it does on settlement. -/
structure Suspended where
  ps : List Promise
  k : Promise → Outcome → Async Unit

/-- The `ServiceTest` surface between two events: its state as written by the setters, the
value of `loading` that the last render put on the screen, and the invocations of
`testEndpoint` that are suspended at an `await`. -/
structure Surface where
  serviceName : String
  world : World
  rendered : Bool
  waiting : List Suspended

/-- What can happen to the surface: the user clicks the button of an endpoint (at time
`now`), React renders the component again with the current state, or the network settles
a promise. -/
inductive UiEvent where
  | click (endpoint : EndpointDescriptor) (now : String)
  | render
  | settle (p : Promise) (o : Outcome)

/-- Runs a function up to its next suspension point and parks it there if it suspends. -/
def Surface.start (s : Surface) (t : Async Unit) : Surface :=
  match t.advance s.world with
  | (w, .awaitAny ps k) => { s with world := w, waiting := s.waiting ++ [⟨ps, k⟩] }
  | (w, _) => { s with world := w }

/-- Hands a settlement to the suspended invocations, in order: one that waits for the
promise is resumed, the others stay parked. -/
def Surface.deliver (p : Promise) (o : Outcome) : List Suspended → Surface → Surface
  | [], s => s
  | t :: ts, s =>
    if p ∈ t.ps then Surface.deliver p o ts (s.start (t.k p o))
    else Surface.deliver p o ts { s with waiting := s.waiting ++ [t] }

/-- An invocation `testEndpoint(endpoint)` on the surface. The function has no guard of its
own: it runs whatever the state is. -/
def Surface.invoke (s : Surface) (endpoint : EndpointDescriptor) (now : String) : Surface :=
  s.start (testEndpoint s.serviceName endpoint now)

/-- One event on the surface. The endpoint buttons are rendered with
`onClick={() => testEndpoint(endpoint)}` and `disabled={loading}` (App.jsx lines 135-139),
where `loading` is the value seen by the last render: a click on a button rendered
disabled dispatches no handler, any other click invokes `testEndpoint`. -/
def Surface.step (s : Surface) : UiEvent → Surface
  | .click endpoint now =>
    if s.rendered then s
    else s.invoke endpoint now
  | .render => { s with rendered := s.world.loading }
  | .settle p o =>
    if p ∈ s.world.inFlight then
      Surface.deliver p o s.waiting
        { s with world := { s.world with inFlight := s.world.inFlight.erase p }, waiting := [] }
    else s

/-- The surface when mounted: `useState(null)`, `useState(false)`, rendered with these,
nothing in flight. -/
def Surface.initial (serviceName : String) : Surface :=
  { serviceName := serviceName, world := World.init false .null, rendered := false,
    waiting := [] }

/-- The surface after a sequence of events. -/
def Surface.run (s : Surface) (events : List UiEvent) : Surface :=
  events.foldl Surface.step s

/-- Every click in the sequence is directly followed by a render: the surface shows the
state written by a click handler before anything else happens. -/
def rendersAfterClick : List UiEvent → Bool
  | [] => true
  | .click _ _ :: .render :: rest => rendersAfterClick rest
  | .click _ _ :: _ => false
  | _ :: rest => rendersAfterClick rest

/-! ## Runs of single invocations -/

/-- The run of `testEndpoint` on a surface showing `loading` and `slot`, in which the
request, if one is sent, settles with `o`. -/
def ServiceTest.run (serviceName : String) (endpoint : EndpointDescriptor) (now : String)
    (o : Outcome) (loading : Bool) (slot : JsValue) : World × Completion Unit :=
  (testEndpoint serviceName endpoint now).drive [(0, o)] (World.init loading slot)

/-- The run of `checkAllServices` in which the probe of `service-a` settles with `oA` and
then the probe of `service-b` with `oB`. -/
def Dashboard.run (oA oB : Outcome) (slot : JsValue) : World × Completion Unit :=
  checkAllServices.drive [(0, oA), (1, oB)] (World.init false slot)

/-- The run of `runTest(type)` against the given settlements. -/
def CrossServiceTest.run (type : JsValue) (events : List (Promise × Outcome))
    (loading : Bool) (slot : JsValue) : World × Completion Unit :=
  (runTest type).drive events (World.init loading slot)

/-- The requests dispatched during a run, in order. -/
def World.requests (w : World) : List Request :=
  w.log.filterMap fun e =>
    match e with
    | .send _ r => some r
    | _ => none

/-- The values written to the result slot during a run, in order. -/
def World.published (w : World) : List JsValue :=
  w.log.filterMap fun e =>
    match e with
    | .setSlot v => some v
    | _ => none

/-- The two settlements of a `both` run in order of arrival: promise 0 is the call to
`service-a`, promise 1 the call to `service-b`. -/
def bothSchedule (aFirst : Bool) (oA oB : Outcome) : List (Promise × Outcome) :=
  if aFirst then [(0, oA), (1, oB)] else [(1, oB), (0, oA)]

/-! ## Invariant of the `ServiceTest` surface -/

/-- A continuation that, however the promise settles, runs to its end without suspending
again, sends nothing, and leaves `loading` false. -/
def Finishes (k : Promise → Outcome → Async Unit) (p : Promise) : Prop :=
  ∀ (o : Outcome) (w : World),
    ∃ w1, (k p o).advance w = (w1, .done ()) ∧ w1.loading = false ∧ w1.inFlight = w.inFlight

/-- The surface is idle: not busy, nothing in flight, no invocation suspended. -/
def Surface.Idle (s : Surface) : Prop :=
  s.world.loading = false ∧ s.world.inFlight = [] ∧ s.waiting = []

/-- The surface is busy: `loading` is set and rendered, exactly one request is in flight,
and exactly one invocation is suspended, waiting for that request and finishing when it
settles. -/
def Surface.Busy (s : Surface) : Prop :=
  s.world.loading = true ∧ s.rendered = true ∧
  ∃ p k, s.world.inFlight = [p] ∧ s.waiting = [⟨[p], k⟩] ∧ Finishes k p

/-! ## The endpoint tester -/

/-- C1. Failure normalisation: when the method is GET or POST and the request fails with a
transport error that carries no response, `testEndpoint` returns normally and the result
slot holds the record with the request URL, the method, status `"Error"`, the error's
message as data and the empty mapping as headers. -/
theorem testEndpoint_transport_error (serviceName : String) (endpoint : EndpointDescriptor)
    (now : String) (e : JsError) (loading : Bool) (slot : JsValue)
    (hm : endpoint.method = "GET" ∨ endpoint.method = "POST") (he : e.response = none) :
    (ServiceTest.run serviceName endpoint now (.rejected e) loading slot).2 = .returned () ∧
    (ServiceTest.run serviceName endpoint now (.rejected e) loading slot).1.slot =
      .obj [
        ("endpoint", .str (API_BASE_URL ++ "/" ++ serviceName ++ endpoint.path)),
        ("method", .str endpoint.method),
        ("status", .str "Error"),
        ("data", .str e.message),
        ("headers", .obj [])] := by
  rcases hm with h | h <;>
    simp [ServiceTest.run, testEndpoint, h, he, Async.drive, Async.advance, World.init,
      optChain, JsValue.or, JsValue.truthy]

/-- C1 at a concrete input: a network error on `GET /service-a/health`. -/
theorem testEndpoint_transport_error_witness :
    (ServiceTest.run "service-a" ⟨"Health Check", "/health", "GET"⟩ "2024-01-01T00:00:00.000Z"
        (.rejected ⟨"Network Error", none⟩) false .null).2 = .returned () ∧
    (ServiceTest.run "service-a" ⟨"Health Check", "/health", "GET"⟩ "2024-01-01T00:00:00.000Z"
        (.rejected ⟨"Network Error", none⟩) false .null).1.slot =
      .obj [
        ("endpoint", .str (API_BASE_URL ++ "/" ++ "service-a" ++ "/health")),
        ("method", .str "GET"),
        ("status", .str "Error"),
        ("data", .str "Network Error"),
        ("headers", .obj [])] :=
  testEndpoint_transport_error "service-a" ⟨"Health Check", "/health", "GET"⟩
    "2024-01-01T00:00:00.000Z" ⟨"Network Error", none⟩ false .null (Or.inl rfl) rfl

/-- C2. Success round trip: when the method is GET or POST and the request is answered
with `r`, `testEndpoint` returns normally and the result slot holds exactly
`{endpoint, method, status: r.status, data: r.data, headers: r.headers}`; for `service-a`,
path `/health` and the answer `{status: 200, data: {ok: true}, headers: {}}` the endpoint
is `http://localhost:80/service-a/health` and `data.ok` is `true`. -/
theorem testEndpoint_success_round_trip (serviceName : String) (endpoint : EndpointDescriptor)
    (now : String) (r : Response) (loading : Bool) (slot : JsValue)
    (hm : endpoint.method = "GET" ∨ endpoint.method = "POST") :
    ((ServiceTest.run serviceName endpoint now (.fulfilled r) loading slot).2 = .returned () ∧
     (ServiceTest.run serviceName endpoint now (.fulfilled r) loading slot).1.slot =
      .obj [
        ("endpoint", .str (API_BASE_URL ++ "/" ++ serviceName ++ endpoint.path)),
        ("method", .str endpoint.method),
        ("status", r.status),
        ("data", r.data),
        ("headers", r.headers)]) ∧
    ((ServiceTest.run "service-a" ⟨"Health Check", "/health", "GET"⟩ now
        (.fulfilled ⟨.num 200, .obj [("ok", .bool true)], .obj []⟩) loading slot).1.slot.field
        "endpoint" = .str "http://localhost:80/service-a/health" ∧
     ((ServiceTest.run "service-a" ⟨"Health Check", "/health", "GET"⟩ now
        (.fulfilled ⟨.num 200, .obj [("ok", .bool true)], .obj []⟩) loading slot).1.slot.field
        "data").field "ok" = .bool true) := by
  refine ⟨?_, ?_⟩
  · rcases hm with h | h <;>
      simp [ServiceTest.run, testEndpoint, h, Async.drive, Async.advance, World.init, member]
  · simp [ServiceTest.run, testEndpoint, Async.drive, Async.advance, World.init, member,
      JsValue.field, List.lookup, API_BASE_URL]

/-- C2 at a concrete input: `POST /service-b/api` answered with status 201. -/
theorem testEndpoint_success_round_trip_witness :
    ((ServiceTest.run "service-b" ⟨"Create", "/api", "POST"⟩ "2024-01-01T00:00:00.000Z"
        (.fulfilled ⟨.num 201, .str "created", .obj []⟩) false .null).2 = .returned () ∧
     (ServiceTest.run "service-b" ⟨"Create", "/api", "POST"⟩ "2024-01-01T00:00:00.000Z"
        (.fulfilled ⟨.num 201, .str "created", .obj []⟩) false .null).1.slot =
      .obj [
        ("endpoint", .str (API_BASE_URL ++ "/" ++ "service-b" ++ "/api")),
        ("method", .str "POST"),
        ("status", .num 201),
        ("data", .str "created"),
        ("headers", .obj [])]) ∧
    ((ServiceTest.run "service-a" ⟨"Health Check", "/health", "GET"⟩ "2024-01-01T00:00:00.000Z"
        (.fulfilled ⟨.num 200, .obj [("ok", .bool true)], .obj []⟩) false .null).1.slot.field
        "endpoint" = .str "http://localhost:80/service-a/health" ∧
     ((ServiceTest.run "service-a" ⟨"Health Check", "/health", "GET"⟩ "2024-01-01T00:00:00.000Z"
        (.fulfilled ⟨.num 200, .obj [("ok", .bool true)], .obj []⟩) false .null).1.slot.field
        "data").field "ok" = .bool true) :=
  testEndpoint_success_round_trip "service-b" ⟨"Create", "/api", "POST"⟩
    "2024-01-01T00:00:00.000Z" ⟨.num 201, .str "created", .obj []⟩ false .null (Or.inr rfl)

/-- C4, refuted as stated: a `GET` that fails with the server response
`{status: 500, data: '', headers: {}}` does not publish the server's values: the empty
body is replaced by the error message. -/
theorem testEndpoint_empty_body_replaced :
    ¬ ((ServiceTest.run "service-a" ⟨"Health Check", "/health", "GET"⟩ "2024-01-01T00:00:00.000Z"
          (.rejected ⟨"Request failed with status code 500",
            some ⟨.num 500, .str "", .obj []⟩⟩) false .null).1.slot.field "status" = .num 500 ∧
       (ServiceTest.run "service-a" ⟨"Health Check", "/health", "GET"⟩ "2024-01-01T00:00:00.000Z"
          (.rejected ⟨"Request failed with status code 500",
            some ⟨.num 500, .str "", .obj []⟩⟩) false .null).1.slot.field "data" = .str "" ∧
       (ServiceTest.run "service-a" ⟨"Health Check", "/health", "GET"⟩ "2024-01-01T00:00:00.000Z"
          (.rejected ⟨"Request failed with status code 500",
            some ⟨.num 500, .str "", .obj []⟩⟩) false .null).1.slot.field "headers" = .obj []) := by
  simp [ServiceTest.run, testEndpoint, Async.drive, Async.advance, World.init, optChain,
    JsValue.or, JsValue.truthy, JsValue.field, List.lookup]

/-- C4, amended: in the failure outcome of `testEndpoint` each field falls back when the
server value is unavailable or falsy. For a GET or POST that fails with error `e`, the
published status is the response's status when that is truthy and `"Error"` otherwise, the
data is the response's body when that is truthy and the error message otherwise, the
headers are the response's headers when truthy and the empty mapping otherwise; an error
without a response gives `"Error"`, the message and the empty mapping. -/
theorem testEndpoint_failure_fallback (serviceName : String) (endpoint : EndpointDescriptor)
    (now : String) (e : JsError) (loading : Bool) (slot : JsValue)
    (hm : endpoint.method = "GET" ∨ endpoint.method = "POST") :
    (ServiceTest.run serviceName endpoint now (.rejected e) loading slot).2 = .returned () ∧
    (ServiceTest.run serviceName endpoint now (.rejected e) loading slot).1.slot =
      .obj [
        ("endpoint", .str (API_BASE_URL ++ "/" ++ serviceName ++ endpoint.path)),
        ("method", .str endpoint.method),
        ("status",
          match e.response with
          | some r => if r.status.truthy then r.status else .str "Error"
          | none => .str "Error"),
        ("data",
          match e.response with
          | some r => if r.data.truthy then r.data else .str e.message
          | none => .str e.message),
        ("headers",
          match e.response with
          | some r => if r.headers.truthy then r.headers else .obj []
          | none => .obj [])] := by
  rcases hm with h | h <;> cases he : e.response <;>
    simp [ServiceTest.run, testEndpoint, h, he, Async.drive, Async.advance, World.init,
      optChain, JsValue.or, JsValue.truthy]

/-- C4, amended, at a concrete input: a 404 with a JSON body keeps the server's values. -/
theorem testEndpoint_failure_fallback_witness :
    (ServiceTest.run "service-a" ⟨"Get API Data", "/api", "GET"⟩ "2024-01-01T00:00:00.000Z"
        (.rejected ⟨"Request failed with status code 404",
          some ⟨.num 404, .obj [("error", .str "not found")], .obj []⟩⟩) true .null).2
      = .returned () ∧
    (ServiceTest.run "service-a" ⟨"Get API Data", "/api", "GET"⟩ "2024-01-01T00:00:00.000Z"
        (.rejected ⟨"Request failed with status code 404",
          some ⟨.num 404, .obj [("error", .str "not found")], .obj []⟩⟩) true .null).1.slot =
      .obj [
        ("endpoint", .str (API_BASE_URL ++ "/" ++ "service-a" ++ "/api")),
        ("method", .str "GET"),
        ("status", .num 404),
        ("data", .obj [("error", .str "not found")]),
        ("headers", .obj [])] :=
  testEndpoint_failure_fallback "service-a" ⟨"Get API Data", "/api", "GET"⟩
    "2024-01-01T00:00:00.000Z"
    ⟨"Request failed with status code 404",
      some ⟨.num 404, .obj [("error", .str "not found")], .obj []⟩⟩ true .null (Or.inl rfl)

/-- C9. `testEndpoint` never propagates a fault and always ends well-formed: for every
service name, every descriptor whatever its method string, and every way the request can
settle, the invocation returns normally, `loading` is `false`, and the result slot holds a
record with exactly the fields endpoint, method, status, data, headers; a request is sent
exactly when the method is `GET` or `POST`. -/
theorem testEndpoint_always_well_formed (serviceName : String) (endpoint : EndpointDescriptor)
    (now : String) (o : Outcome) (loading : Bool) (slot : JsValue) :
    (ServiceTest.run serviceName endpoint now o loading slot).2 = .returned () ∧
    (ServiceTest.run serviceName endpoint now o loading slot).1.loading = false ∧
    (ServiceTest.run serviceName endpoint now o loading slot).1.slot.keys =
      ["endpoint", "method", "status", "data", "headers"] ∧
    (ServiceTest.run serviceName endpoint now o loading slot).1.requests.length =
      (if endpoint.method = "GET" ∨ endpoint.method = "POST" then 1 else 0) := by
  by_cases hg : endpoint.method = "GET"
  · cases o <;>
      simp [ServiceTest.run, testEndpoint, hg, Async.drive, Async.advance, World.init, member,
        JsValue.keys, World.requests]
  · by_cases hp : endpoint.method = "POST"
    · cases o <;>
        simp [ServiceTest.run, testEndpoint, hp, Async.drive, Async.advance, World.init,
          member, JsValue.keys, World.requests]
    · simp [ServiceTest.run, testEndpoint, hg, hp, Async.drive, Async.advance, World.init,
        member, JsValue.keys, World.requests]

/-! ## The health dashboard -/

/-- C3. `checkAllServices` is total over probe outcomes: however the two health probes
settle, it returns normally and publishes one snapshot with an entry for both services;
the entry of a service whose probe succeeded is `{status: 'healthy', data: body}` and the
entry of a service whose probe failed is `{status: 'unhealthy', data: message}`, each entry
depending on its own probe only. The probes are `GET {base}/service-a/health` and then
`GET {base}/service-b/health`. -/
theorem checkAllServices_total (oA oB : Outcome) (slot : JsValue) :
    (Dashboard.run oA oB slot).2 = .returned () ∧
    (Dashboard.run oA oB slot).1.slot =
      .obj [
        ("serviceA",
          match oA with
          | .fulfilled r => .obj [("status", .str "healthy"), ("data", r.data)]
          | .rejected e => .obj [("status", .str "unhealthy"), ("data", .str e.message)]),
        ("serviceB",
          match oB with
          | .fulfilled r => .obj [("status", .str "healthy"), ("data", r.data)]
          | .rejected e => .obj [("status", .str "unhealthy"), ("data", .str e.message)])] ∧
    (Dashboard.run oA oB slot).1.slot.keys = ["serviceA", "serviceB"] ∧
    (Dashboard.run oA oB slot).1.published.length = 1 ∧
    (Dashboard.run oA oB slot).1.requests =
      [.get (API_BASE_URL ++ "/" ++ "service-a" ++ "/health"),
       .get (API_BASE_URL ++ "/" ++ "service-b" ++ "/health")] := by
  cases oA <;> cases oB <;>
    simp [Dashboard.run, checkAllServices, checkServiceHealth, Async.drive, Async.advance,
      World.init, JsValue.keys, World.published, World.requests]

/-! ## The cross-service runner -/

/-- C6. The run `runTest('both')` with both calls succeeding: both requests are dispatched
before the function first suspends; while none or only one of them has settled the
function is suspended with the result slot `null` and `loading` true; once both have
settled, in either order, it has returned, `loading` is `false`, and the only value
published after the initial `null` is `{status: 'Success', endpoints, data}` in which each
direction carries the body of the response to that direction's URL. -/
theorem runTest_both_success (rA rB : Response) (aFirst loading : Bool) (slot : JsValue) :
    ((CrossServiceTest.run (.str "both") [] loading slot).2 = .pending ∧
     (CrossServiceTest.run (.str "both") [] loading slot).1.slot = .null ∧
     (CrossServiceTest.run (.str "both") [] loading slot).1.loading = true ∧
     (CrossServiceTest.run (.str "both") [] loading slot).1.requests =
       [.get (API_BASE_URL ++ "/service-a/api/with-service-b"),
        .get (API_BASE_URL ++ "/service-b/api/with-service-a")]) ∧
    ((CrossServiceTest.run (.str "both")
        ((bothSchedule aFirst (.fulfilled rA) (.fulfilled rB)).take 1) loading slot).2
        = .pending ∧
     (CrossServiceTest.run (.str "both")
        ((bothSchedule aFirst (.fulfilled rA) (.fulfilled rB)).take 1) loading slot).1.slot
        = .null ∧
     (CrossServiceTest.run (.str "both")
        ((bothSchedule aFirst (.fulfilled rA) (.fulfilled rB)).take 1) loading slot).1.loading
        = true) ∧
    ((CrossServiceTest.run (.str "both")
        (bothSchedule aFirst (.fulfilled rA) (.fulfilled rB)) loading slot).2 = .returned () ∧
     (CrossServiceTest.run (.str "both")
        (bothSchedule aFirst (.fulfilled rA) (.fulfilled rB)) loading slot).1.loading = false ∧
     (CrossServiceTest.run (.str "both")
        (bothSchedule aFirst (.fulfilled rA) (.fulfilled rB)) loading slot).1.published =
       [.null,
        .obj [
          ("status", .str "Success"),
          ("endpoints", .obj [
            ("service-a-to-b", .str (API_BASE_URL ++ "/service-a/api/with-service-b")),
            ("service-b-to-a", .str (API_BASE_URL ++ "/service-b/api/with-service-a"))]),
          ("data", .obj [
            ("service-a-to-b", rA.data),
            ("service-b-to-a", rB.data)])]] ∧
     (CrossServiceTest.run (.str "both")
        (bothSchedule aFirst (.fulfilled rA) (.fulfilled rB)) loading slot).1.slot =
        .obj [
          ("status", .str "Success"),
          ("endpoints", .obj [
            ("service-a-to-b", .str (API_BASE_URL ++ "/service-a/api/with-service-b")),
            ("service-b-to-a", .str (API_BASE_URL ++ "/service-b/api/with-service-a"))]),
          ("data", .obj [
            ("service-a-to-b", rA.data),
            ("service-b-to-a", rB.data)])]) := by
  cases aFirst <;>
    simp [CrossServiceTest.run, bothSchedule, runTest, Promise.all, Async.drive,
      Async.advance, World.init, World.published, World.requests]

/-- C5, refuted as stated: in `runTest('both')`, when the call to `service-a` fails with a
network error and the call to `service-b` is answered with `{ok: true}`, the result slot
holds neither the two endpoint URLs nor the payload of the `service-b` direction. -/
theorem runTest_both_failure_discards :
    ¬ ((CrossServiceTest.run (.str "both")
          (bothSchedule false (.rejected ⟨"Network Error", none⟩)
            (.fulfilled ⟨.num 200, .obj [("ok", .bool true)], .obj []⟩))
          false .null).1.slot.field "endpoints" =
          .obj [
            ("service-a-to-b", .str (API_BASE_URL ++ "/service-a/api/with-service-b")),
            ("service-b-to-a", .str (API_BASE_URL ++ "/service-b/api/with-service-a"))] ∨
       ((CrossServiceTest.run (.str "both")
          (bothSchedule false (.rejected ⟨"Network Error", none⟩)
            (.fulfilled ⟨.num 200, .obj [("ok", .bool true)], .obj []⟩))
          false .null).1.slot.field "data").field "service-b-to-a" =
          .obj [("ok", .bool true)]) := by
  simp [CrossServiceTest.run, bothSchedule, runTest, Promise.all, Async.drive,
    Async.advance, World.init, JsValue.field]

/-- C5, amended: `runTest('both')` publishes the merged structure keyed by direction
exactly when both calls succeed. When a call fails, in whichever order the two settle,
the invocation ends with `loading` false and no published value carries the `endpoints`
mapping or a payload keyed by direction: the payload of the other direction and the two
endpoint URLs are discarded. -/
theorem runTest_both_merges_only_on_success (oA oB : Outcome) (aFirst loading : Bool)
    (slot : JsValue) :
    match oA, oB with
    | .fulfilled rA, .fulfilled rB =>
      (CrossServiceTest.run (.str "both") (bothSchedule aFirst (.fulfilled rA) (.fulfilled rB))
          loading slot).2 = .returned () ∧
      (CrossServiceTest.run (.str "both") (bothSchedule aFirst (.fulfilled rA) (.fulfilled rB))
          loading slot).1.slot =
        .obj [
          ("status", .str "Success"),
          ("endpoints", .obj [
            ("service-a-to-b", .str (API_BASE_URL ++ "/service-a/api/with-service-b")),
            ("service-b-to-a", .str (API_BASE_URL ++ "/service-b/api/with-service-a"))]),
          ("data", .obj [
            ("service-a-to-b", rA.data),
            ("service-b-to-a", rB.data)])]
    | _, _ =>
      (CrossServiceTest.run (.str "both") (bothSchedule aFirst oA oB) loading slot).2
        ≠ .pending ∧
      (CrossServiceTest.run (.str "both") (bothSchedule aFirst oA oB) loading slot).1.loading
        = false ∧
      ∀ v ∈ (CrossServiceTest.run (.str "both") (bothSchedule aFirst oA oB)
          loading slot).1.published,
        v.field "endpoints" = .undefined ∧
        (v.field "data").field "service-a-to-b" = .undefined ∧
        (v.field "data").field "service-b-to-a" = .undefined := by
  cases oA <;> cases oB <;> cases aFirst <;>
    simp [CrossServiceTest.run, bothSchedule, runTest, Promise.all, Async.drive,
      Async.advance, World.init, World.published, JsValue.field]

/-- For every mode other than the three known ones, `runTest` sends nothing, publishes
nothing after the initial `null`, sets `loading` back to `false`, and rejects with the
`ReferenceError` raised in its `catch` block. -/
theorem runTest_unknown_mode (type : JsValue) (events : List (Promise × Outcome))
    (loading : Bool) (slot : JsValue)
    (h1 : type ≠ .str "a-to-b") (h2 : type ≠ .str "b-to-a") (h3 : type ≠ .str "both") :
    CrossServiceTest.run type events loading slot =
      ({ loading := false, slot := .null, nextId := 0, inFlight := [],
         log := [.setLoading true, .setSlot .null, .setLoading false] },
       .threw (referenceError "endpoint")) := by
  unfold CrossServiceTest.run runTest
  split <;> first | contradiction | skip
  all_goals (cases events <;> simp [Async.drive, Async.advance, World.init])

/-- C7, the code at the failing input `runTest('bogus-mode')`: no request is sent and
`loading` ends `false`, but no error outcome is published (the result slot stays `null`)
and the invocation does not return: it rejects with `ReferenceError: endpoint is not
defined`, raised by the `catch` block. -/
theorem runTest_bogus_mode_rejects :
    (CrossServiceTest.run (.str "bogus-mode") [] false .null).2 =
      .threw ⟨"endpoint is not defined", none⟩ ∧
    (CrossServiceTest.run (.str "bogus-mode") [] false .null).1.slot = .null ∧
    (CrossServiceTest.run (.str "bogus-mode") [] false .null).1.published = [.null] ∧
    (CrossServiceTest.run (.str "bogus-mode") [] false .null).1.requests = [] ∧
    (CrossServiceTest.run (.str "bogus-mode") [] false .null).1.loading = false := by
  rw [runTest_unknown_mode (.str "bogus-mode") [] false .null
    (by simp) (by simp) (by simp)]
  simp [World.published, World.requests, referenceError]

/-! ## The endpoint table -/

/-- The endpoint list of a service name that is neither configured nor the name of a
property inherited from `Object.prototype` is the empty sequence, whatever the state was. -/
theorem endpoints_unknown (serviceName : String) (prev : JsValue)
    (ha : serviceName ≠ "service-a") (hb : serviceName ≠ "service-b")
    (hp : serviceName ∉ objectPrototypeKeys) :
    ServiceTest.setEndpoints serviceName prev = .ok (.arr []) := by
  have ha1 : (serviceName == "service-a") = false := by simpa using ha
  have hb1 : (serviceName == "service-b") = false := by simpa using hb
  have hq : serviceName ≠ "__proto__" := by
    intro h
    exact hp (by simp [h, objectPrototypeKeys])
  simp [ServiceTest.setEndpoints, ServiceTest.endpointsArg, applySetter, getProperty,
    serviceEndpoints, List.lookup, JsValue.or, JsValue.truthy, ha1, hb1, hp, hq]

/-- C8, the code at the failing input `'__proto__'`: the lookup in the static table gives
the four descriptors of `service-a` and of `service-b` in order, but for the service name
`'__proto__'`, which is neither of the two, the read `serviceEndpoints[serviceName]` gives
the object `Object.prototype`, which is truthy and not a function, so it becomes the
`endpoints` state in place of the empty sequence. For `'toString'` the read gives a
function, which the setter calls as an updater, and the state becomes the string
`"[object Undefined]"`; for `'constructor'` the updater is `Object`, which returns the
current state, so the list stays the empty sequence. -/
theorem endpoints_proto_not_empty :
    ServiceTest.endpoints "service-a" =
      .ok (.arr [
        .obj [("name", .str "Health Check"), ("path", .str "/health"), ("method", .str "GET")],
        .obj [("name", .str "Get API Data"), ("path", .str "/api"), ("method", .str "GET")],
        .obj [("name", .str "Call Service B"), ("path", .str "/api/with-service-b"),
          ("method", .str "GET")],
        .obj [("name", .str "Internal Endpoint"), ("path", .str "/internal"),
          ("method", .str "GET")]]) ∧
    ServiceTest.endpoints "service-b" =
      .ok (.arr [
        .obj [("name", .str "Health Check"), ("path", .str "/health"), ("method", .str "GET")],
        .obj [("name", .str "Get API Data"), ("path", .str "/api"), ("method", .str "GET")],
        .obj [("name", .str "Call Service A"), ("path", .str "/api/with-service-a"),
          ("method", .str "GET")],
        .obj [("name", .str "Internal Endpoint"), ("path", .str "/internal"),
          ("method", .str "GET")]]) ∧
    "__proto__" ≠ "service-a" ∧ "__proto__" ≠ "service-b" ∧
    ServiceTest.endpoints "__proto__" = .ok (.builtin "Object.prototype") ∧
    ServiceTest.endpoints "__proto__" ≠ .ok (.arr []) ∧
    ServiceTest.endpoints "toString" = .ok (.str "[object Undefined]") ∧
    ServiceTest.endpoints "constructor" = .ok (.arr []) := by
  simp [ServiceTest.endpoints, ServiceTest.setEndpoints, ServiceTest.endpointsArg,
    applySetter, callBuiltin, getProperty, serviceEndpoints, EndpointDescriptor.toJs,
    JsValue.or, JsValue.truthy, List.lookup, objectPrototypeKeys]

/-! ## The concurrency guard of the endpoint tester -/

theorem testEndpoint_advance_request (serviceName : String) (endpoint : EndpointDescriptor)
    (now : String) (w : World)
    (hm : endpoint.method = "GET" ∨ endpoint.method = "POST") :
    ∃ w1 k, (testEndpoint serviceName endpoint now).advance w = (w1, .awaitAny [w.nextId] k) ∧
      w1.loading = true ∧ w1.inFlight = w.inFlight ++ [w.nextId] ∧ Finishes k w.nextId := by
  rcases hm with h | h
  · simp only [testEndpoint, h]
    refine ⟨_, _, by simp [Async.advance]; exact ⟨rfl, rfl⟩, rfl, rfl, ?_⟩
    intro o w2
    cases o <;> simp [Async.advance, member]
  · simp only [testEndpoint, h]
    refine ⟨_, _, by simp [Async.advance]; exact ⟨rfl, rfl⟩, rfl, rfl, ?_⟩
    intro o w2
    cases o <;> simp [Async.advance, member]

theorem testEndpoint_advance_no_request (serviceName : String) (endpoint : EndpointDescriptor)
    (now : String) (w : World)
    (hg : endpoint.method ≠ "GET") (hp : endpoint.method ≠ "POST") :
    ∃ w1, (testEndpoint serviceName endpoint now).advance w = (w1, .done ()) ∧
      w1.loading = false ∧ w1.inFlight = w.inFlight := by
  simp [testEndpoint, hg, hp, Async.advance, member]

theorem Surface.click_render_inv (s : Surface) (endpoint : EndpointDescriptor) (now : String)
    (h : s.Idle ∨ s.Busy) :
    ((s.step (.click endpoint now)).step .render).Idle ∨
      ((s.step (.click endpoint now)).step .render).Busy := by
  by_cases hr : s.rendered = true
  · simp only [Surface.step, hr, if_true]
    rcases h with ⟨hl, hf, hw⟩ | ⟨hl, _, p, k, hf, hw, hk⟩
    · exact Or.inl ⟨hl, hf, hw⟩
    · exact Or.inr ⟨hl, hl, p, k, hf, hw, hk⟩
  · rcases h with ⟨hl, hf, hw⟩ | ⟨_, hr1, _⟩
    · by_cases hm : endpoint.method = "GET" ∨ endpoint.method = "POST"
      · obtain ⟨w1, k, hadv, h1, h2, h3⟩ :=
          testEndpoint_advance_request s.serviceName endpoint now s.world hm
        right
        simp only [Surface.step, hr, Surface.invoke, Surface.start, hadv]
        refine ⟨h1, h1, s.world.nextId, k, ?_, ?_, h3⟩
        · simp [h2, hf]
        · simp [hw]
      · obtain ⟨w1, hadv, h1, h2⟩ :=
          testEndpoint_advance_no_request s.serviceName endpoint now s.world
            (fun h => hm (Or.inl h)) (fun h => hm (Or.inr h))
        left
        simp only [Surface.step, hr, Surface.invoke, Surface.start, hadv]
        exact ⟨h1, by simp [h2, hf], hw⟩
    · exact absurd hr1 hr

theorem Surface.render_inv (s : Surface) (h : s.Idle ∨ s.Busy) :
    (s.step .render).Idle ∨ (s.step .render).Busy := by
  rcases h with ⟨hl, hf, hw⟩ | ⟨hl, _, p, k, hf, hw, hk⟩
  · exact Or.inl ⟨hl, hf, hw⟩
  · exact Or.inr ⟨hl, hl, p, k, hf, hw, hk⟩

theorem Surface.settle_inv (s : Surface) (q : Promise) (o : Outcome) (h : s.Idle ∨ s.Busy) :
    (s.step (.settle q o)).Idle ∨ (s.step (.settle q o)).Busy := by
  rcases h with ⟨hl, hf, hw⟩ | ⟨hl, hr, p, k, hf, hw, hk⟩
  · left
    simp only [Surface.step, hf, List.not_mem_nil, if_false]
    exact ⟨hl, hf, hw⟩
  · by_cases hq : q = p
    · subst hq
      obtain ⟨w1, hadv, h1, h2⟩ := hk o { s.world with inFlight := List.erase [q] q }
      left
      simp only [Surface.step, hf, hw, List.mem_singleton, if_true, Surface.deliver,
        Surface.start, hadv]
      exact ⟨h1, by simp [h2], rfl⟩
    · right
      simp only [Surface.step, hf, List.mem_singleton, hq, if_false]
      exact ⟨hl, hr, p, k, hf, hw, hk⟩

theorem Surface.run_inv : ∀ (events : List UiEvent) (s : Surface),
    rendersAfterClick events = true → s.Idle ∨ s.Busy →
    (s.run events).Idle ∨ (s.run events).Busy
  | [], _, _, h => h
  | .click endpoint now :: .render :: rest, s, hr, h =>
    Surface.run_inv rest _ (by simpa [rendersAfterClick] using hr)
      (Surface.click_render_inv s endpoint now h)
  | [.click _ _], _, hr, _ => by simp [rendersAfterClick] at hr
  | .click _ _ :: .click _ _ :: _, _, hr, _ => by simp [rendersAfterClick] at hr
  | .click _ _ :: .settle _ _ :: _, _, hr, _ => by simp [rendersAfterClick] at hr
  | .render :: rest, s, hr, h =>
    Surface.run_inv rest _ (by simpa [rendersAfterClick] using hr) (Surface.render_inv s h)
  | .settle q o :: rest, s, hr, h =>
    Surface.run_inv rest _ (by simpa [rendersAfterClick] using hr)
      (Surface.settle_inv s q o h)

theorem Surface.initial_idle (serviceName : String) : (Surface.initial serviceName).Idle :=
  ⟨rfl, rfl, rfl⟩

/-- C10, refuted as stated. After a first invocation of `testEndpoint` on `GET /health` the
surface has `loading` true and one invocation suspended; a second invocation in that state
is not a no-op: it sends a second request, so two are in flight. Likewise two clicks with
no render between them both reach `testEndpoint`, because the button is disabled by the
rendered value of `loading`, not by the value just written. -/
theorem testEndpoint_second_invocation_sends :
    ((Surface.initial "service-a").invoke ⟨"Health Check", "/health", "GET"⟩
        "2024-01-01T00:00:00.000Z").world.loading = true ∧
    ((Surface.initial "service-a").invoke ⟨"Health Check", "/health", "GET"⟩
        "2024-01-01T00:00:00.000Z").waiting.length = 1 ∧
    ¬ ((((Surface.initial "service-a").invoke ⟨"Health Check", "/health", "GET"⟩
          "2024-01-01T00:00:00.000Z").invoke ⟨"Get API Data", "/api", "GET"⟩
          "2024-01-01T00:00:01.000Z").world.inFlight.length ≤ 1) ∧
    (((Surface.initial "service-a").invoke ⟨"Health Check", "/health", "GET"⟩
        "2024-01-01T00:00:00.000Z").invoke ⟨"Get API Data", "/api", "GET"⟩
        "2024-01-01T00:00:01.000Z").world.requests =
      [.get (API_BASE_URL ++ "/" ++ "service-a" ++ "/health"),
       .get (API_BASE_URL ++ "/" ++ "service-a" ++ "/api")] ∧
    ((Surface.initial "service-a").run
        [.click ⟨"Health Check", "/health", "GET"⟩ "2024-01-01T00:00:00.000Z",
         .click ⟨"Get API Data", "/api", "GET"⟩ "2024-01-01T00:00:01.000Z"]).world.inFlight.length
      = 2 := by
  simp [Surface.run, Surface.step, Surface.invoke, Surface.initial, Surface.start, World.init,
    World.requests, testEndpoint, Async.advance]

/-- C10, amended. The guard of the endpoint tester is the `disabled` attribute of the
endpoint buttons, which follows `loading` as last rendered. In every state the surface
reaches from its mount by clicks, renders and settlements in which a render directly
follows each click: `loading` is true exactly when an invocation of `testEndpoint` is
suspended; while one is, the buttons are rendered disabled and a click is a no-op (the
whole state, with the result slot, the busy flag, the requests in flight and the log of
actions, is unchanged, so no request is sent); at most one request is in flight and at
most one invocation is suspended; and the settlement of the request in flight completes
the invocation and sets `loading` back to `false`. -/
theorem ServiceTest_disabled_guard (serviceName : String) (events : List UiEvent)
    (hr : rendersAfterClick events = true) :
    (((Surface.initial serviceName).run events).world.loading = true ↔
      ((Surface.initial serviceName).run events).waiting ≠ []) ∧
    (∀ endpoint now, ((Surface.initial serviceName).run events).waiting ≠ [] →
      ((Surface.initial serviceName).run events).rendered = true ∧
      ((Surface.initial serviceName).run events).step (.click endpoint now) =
        (Surface.initial serviceName).run events) ∧
    ((Surface.initial serviceName).run events).world.inFlight.length ≤ 1 ∧
    ((Surface.initial serviceName).run events).waiting.length ≤ 1 ∧
    (∀ p ∈ ((Surface.initial serviceName).run events).world.inFlight, ∀ o,
      (((Surface.initial serviceName).run events).step (.settle p o)).waiting = [] ∧
      (((Surface.initial serviceName).run events).step (.settle p o)).world.inFlight = [] ∧
      (((Surface.initial serviceName).run events).step (.settle p o)).world.loading = false) := by
  have hinv := Surface.run_inv events _ hr (Or.inl (Surface.initial_idle serviceName))
  generalize (Surface.initial serviceName).run events = s at hinv ⊢
  rcases hinv with ⟨hl, hf, hw⟩ | ⟨hl, hrd, p, k, hf, hw, hk⟩
  · simp [hl, hf, hw]
  · refine ⟨by simp [hl, hw], ?_, by simp [hf], by simp [hw], ?_⟩
    · intro endpoint now _
      exact ⟨hrd, by simp [Surface.step, hrd]⟩
    · intro q hq o
      have hqp : q = p := by simpa [hf] using hq
      subst hqp
      obtain ⟨w1, hadv, h1, h2⟩ := hk o { s.world with inFlight := List.erase [q] q }
      simp only [Surface.step, hf, hw, List.mem_singleton, if_true, Surface.deliver,
        Surface.start, hadv]
      exact ⟨trivial, by simp [h2], h1⟩


/-- C10, amended, at a concrete run: after a click on `GET /health` of `service-a` and the
render that follows it, an invocation is suspended and the guard applies to the state
reached. -/
theorem ServiceTest_disabled_guard_witness :
    rendersAfterClick
      [.click ⟨"Health Check", "/health", "GET"⟩ "2024-01-01T00:00:00.000Z", .render] = true ∧
    ((Surface.initial "service-a").run
        [.click ⟨"Health Check", "/health", "GET"⟩ "2024-01-01T00:00:00.000Z", .render]).waiting.length = 1 ∧
    ((((Surface.initial "service-a").run
        [.click ⟨"Health Check", "/health", "GET"⟩ "2024-01-01T00:00:00.000Z", .render]).world.loading = true ↔
      ((Surface.initial "service-a").run
        [.click ⟨"Health Check", "/health", "GET"⟩ "2024-01-01T00:00:00.000Z", .render]).waiting ≠ []) ∧
    (∀ endpoint now,
      ((Surface.initial "service-a").run
        [.click ⟨"Health Check", "/health", "GET"⟩ "2024-01-01T00:00:00.000Z", .render]).waiting ≠ [] →
      ((Surface.initial "service-a").run
        [.click ⟨"Health Check", "/health", "GET"⟩ "2024-01-01T00:00:00.000Z", .render]).rendered = true ∧
      ((Surface.initial "service-a").run
        [.click ⟨"Health Check", "/health", "GET"⟩ "2024-01-01T00:00:00.000Z", .render]).step (.click endpoint now) =
        ((Surface.initial "service-a").run
        [.click ⟨"Health Check", "/health", "GET"⟩ "2024-01-01T00:00:00.000Z", .render])) ∧
    ((Surface.initial "service-a").run
        [.click ⟨"Health Check", "/health", "GET"⟩ "2024-01-01T00:00:00.000Z", .render]).world.inFlight.length ≤ 1 ∧
    ((Surface.initial "service-a").run
        [.click ⟨"Health Check", "/health", "GET"⟩ "2024-01-01T00:00:00.000Z", .render]).waiting.length ≤ 1 ∧
    (∀ p ∈ ((Surface.initial "service-a").run
        [.click ⟨"Health Check", "/health", "GET"⟩ "2024-01-01T00:00:00.000Z", .render]).world.inFlight, ∀ o,
      (((Surface.initial "service-a").run
        [.click ⟨"Health Check", "/health", "GET"⟩ "2024-01-01T00:00:00.000Z", .render]).step (.settle p o)).waiting = [] ∧
      (((Surface.initial "service-a").run
        [.click ⟨"Health Check", "/health", "GET"⟩ "2024-01-01T00:00:00.000Z", .render]).step (.settle p o)).world.inFlight = [] ∧
      (((Surface.initial "service-a").run
        [.click ⟨"Health Check", "/health", "GET"⟩ "2024-01-01T00:00:00.000Z", .render]).step (.settle p o)).world.loading = false)) :=
  ⟨rfl,
   by simp [Surface.run, Surface.initial, Surface.step, Surface.invoke, Surface.start,
      World.init, testEndpoint, Async.advance],
   ServiceTest_disabled_guard "service-a"
     [.click ⟨"Health Check", "/health", "GET"⟩ "2024-01-01T00:00:00.000Z", .render] rfl⟩

end DockAccess
